import Mathlib

/- Shallow embedding of the codecrafters-sqlite-python sources.
   Bytes are modelled as `List Nat` (each entry a value in [0, 256)), Python
   exceptions as an explicit `Except` error channel, and Python integer
   arithmetic as `Nat` (all quantities involved are non-negative). -/

/-- Python-level failures surfaced by the embedded functions:
`valueError` models `raise ValueError`, `stopIteration` models the
`StopIteration` escaping from `next(...)` on an exhausted generator, and
`indexError` models an out-of-range list subscript. -/
inductive PyError where
  | valueError
  | stopIteration
  | indexError
  deriving DecidableEq

/-- Result record of `huffman_varint` (src/app/sqlite/utils.py): decoded
value and number of consumed bytes. -/
structure HuffmanResult where
  value : Nat
  length : Nat
  deriving DecidableEq

/-- Terminator test used by `huffman_varint`: Python `not bool(byte >> 7)`. -/
def is_last (byte : Nat) : Bool := byte >>> 7 == 0

/-- Embeds `huffman_varint` from src/app/sqlite/utils.py.  The source
rejects inputs shorter than 1 or longer than 9 bytes with `ValueError`,
locates the first byte whose high bit is clear with
`next(index for index, byte in enumerate(bytes) if is_last(byte))`
(which leaks `StopIteration` when no such byte exists), and then folds
`value = (value << 7) | (0x7f & byte)` over `reversed(bytes[:length])`;
since the low 7 bits are free at each step the bitwise-or is addition. -/
def huffman_varint (bytes : List Nat) : Except PyError HuffmanResult :=
  if bytes.length < 1 ∨ bytes.length > 9 then
    Except.error PyError.valueError
  else
    match bytes.findIdx? (fun byte => is_last byte) with
    | none => Except.error PyError.stopIteration
    | some last_varint_byte_index =>
        Except.ok
          ⟨((bytes.take (last_varint_byte_index + 1)).reverse).foldl
              (fun value byte => value * 128 + byte % 128) 0,
            last_varint_byte_index + 1⟩

/-- Embeds `BytesOffsetArray.subbytes` (src/app/sqlite/utils.py), which is
the Python slice `self[offset : offset + length]` for non-negative
`offset` and `length`. -/
def subbytes (self : List Nat) (offset length : Nat) : List Nat :=
  (self.drop offset).take length

/-- Big-endian unsigned `int.from_bytes(raw_bytes, byteorder="big",
signed=False)`. -/
def int_from_bytes_be (bytes : List Nat) : Nat :=
  bytes.foldl (fun acc byte => acc * 256 + byte) 0

/-- Embeds the dataclass `TableBTreeLeafCell` (src/app/sqlite/cell.py).
`row_id` is a `Nat` since the source always stores a varint value there. -/
structure TableBTreeLeafCell where
  payload_size : Nat
  row_id : Nat
  initial_payload : List Nat
  overflow_page : Option Nat
  deriving DecidableEq

/-- Embeds `TableBTreeLeafCell.create` (src/app/sqlite/cell.py, lines
13-50).  The two varints are decoded from 9-byte windows, then the source
compares `cell_end - cell_data_start <= total_size_varint.value`: the
local branch stores `subbytes(cell_data_start, payload_size)` with no
overflow page, the other branch stores `cell_bytes[cell_data_start :
cell_end - 4]` and reads `cell_bytes[-4:]` as the overflow page number.
In the second branch `cell_end > cell_data_start + payload_size ≥ 2`, so
the truncated `Nat` subtractions agree with Python's slice arithmetic on
every reachable input. -/
def TableBTreeLeafCell.create (cell_bytes : List Nat) :
    Except PyError TableBTreeLeafCell :=
  let cell_end := cell_bytes.length
  match huffman_varint (subbytes cell_bytes 0 9) with
  | Except.error e => Except.error e
  | Except.ok total_size_varint =>
    match huffman_varint (subbytes cell_bytes total_size_varint.length 9) with
    | Except.error e => Except.error e
    | Except.ok rowid_varint =>
      let cell_data_start := total_size_varint.length + rowid_varint.length
      if cell_end - cell_data_start ≤ total_size_varint.value then
        Except.ok
          ⟨total_size_varint.value, rowid_varint.value,
            subbytes cell_bytes cell_data_start total_size_varint.value, none⟩
      else
        Except.ok
          ⟨total_size_varint.value, rowid_varint.value,
            (cell_bytes.take (cell_end - 4)).drop cell_data_start,
            some (int_from_bytes_be (cell_bytes.drop (cell_end - 4)))⟩

/-- Serial types of src/app/sqlite/record.py. -/
inductive SerialType where
  | NULL | INT8 | INT16 | INT24 | INT32 | INT48 | INT64
  | FLOAT64 | INT_ZERO | INT_ONE | RESERVED1 | RESERVED2
  | BLOB | STRING
  deriving DecidableEq

/-- Embeds the dataclass `Record` (src/app/sqlite/record.py). -/
structure Record where
  type : SerialType
  data : List Nat
  deriving DecidableEq

/-- Embeds `_parse_header` (src/app/sqlite/record.py, lines 30-61).  The
Python `match` statement is an ordered case analysis, rendered here as an
if-chain; note that values 10 and 11 return a size-0 record of the
reserved type rather than raising, and the final `raise ValueError` arm
is only reachable when every guard fails. -/
def _parse_header (value : Nat) : Except PyError (SerialType × Nat) :=
  if value = 0 then Except.ok (SerialType.NULL, 0)
  else if value = 1 then Except.ok (SerialType.INT8, 1)
  else if value = 2 then Except.ok (SerialType.INT16, 2)
  else if value = 3 then Except.ok (SerialType.INT24, 3)
  else if value = 4 then Except.ok (SerialType.INT32, 4)
  else if value = 5 then Except.ok (SerialType.INT48, 6)
  else if value = 6 then Except.ok (SerialType.INT64, 8)
  else if value = 7 then Except.ok (SerialType.FLOAT64, 8)
  else if value = 8 then Except.ok (SerialType.INT_ZERO, 0)
  else if value = 9 then Except.ok (SerialType.INT_ONE, 0)
  else if value = 10 then Except.ok (SerialType.RESERVED1, 0)
  else if value = 11 then Except.ok (SerialType.RESERVED2, 0)
  else if 12 ≤ value ∧ value % 2 = 0 then
    Except.ok (SerialType.BLOB, (value - 12) / 2)
  else if 13 ≤ value ∧ value % 2 = 1 then
    Except.ok (SerialType.STRING, (value - 13) / 2)
  else Except.error PyError.valueError

/-- Embeds the `while header_offset < len(header_bytes)` loop of
`parse_records` (src/app/sqlite/record.py, lines 75-87).  Each iteration
decodes a serial-type varint from a 9-byte window of the header, resolves
it through `_parse_header`, slices `size` bytes from the body at
`body_offset`, and advances both offsets.  The loop terminates because a
successful `huffman_varint` always consumes at least one byte. -/
def parse_records_go (header_bytes body_bytes : List Nat)
    (header_offset body_offset : Nat) : Except PyError (List Record) :=
  if h : header_offset < header_bytes.length then
    match hv : huffman_varint (subbytes header_bytes header_offset 9) with
    | Except.error e => Except.error e
    | Except.ok header_varint =>
      match _parse_header header_varint.value with
      | Except.error e => Except.error e
      | Except.ok (serial_type, size) =>
        match parse_records_go header_bytes body_bytes
            (header_offset + header_varint.length) (body_offset + size) with
        | Except.error e => Except.error e
        | Except.ok rest =>
            Except.ok (⟨serial_type, subbytes body_bytes body_offset size⟩ :: rest)
  else
    Except.ok []
termination_by header_bytes.length - header_offset
decreasing_by
  have hlen : 1 ≤ header_varint.length := by
    unfold huffman_varint at hv
    split at hv
    · simp at hv
    · split at hv
      · simp at hv
      · injection hv with hv2
        rw [← hv2]
        exact Nat.succ_le_succ (Nat.zero_le _)
  omega

/-- Embeds `parse_records` (src/app/sqlite/record.py, lines 64-88): the
header-size varint is decoded from `payload[:9]`, the payload is split
into `payload[:header_size]` and `payload[header_size:]`, and the header
loop starts right after the header-size varint. -/
def parse_records (payload : List Nat) : Except PyError (List Record) :=
  match huffman_varint (payload.take 9) with
  | Except.error e => Except.error e
  | Except.ok header_size_varint =>
      parse_records_go (payload.take header_size_varint.value)
        (payload.drop header_size_varint.value)
        header_size_varint.length 0

/-- Embeds the `while page_size > 512` loop of
`SQLiteHeader._validate_page_size` (src/app/sqlite/database.py): each
iteration performs `divmod(page_size, 2)` and raises when the remainder
is non-zero. -/
def validate_page_size_loop (page_size : Nat) : Except PyError Unit :=
  if 512 < page_size then
    if page_size % 2 ≠ 0 then Except.error PyError.valueError
    else validate_page_size_loop (page_size / 2)
  else Except.ok ()
termination_by page_size
decreasing_by
  exact Nat.div_lt_self (by omega) (by omega)

/-- Embeds `SQLiteHeader._validate_page_size` (src/app/sqlite/database.py,
lines 69-78): values outside [512, 32768] are rejected before the
power-of-two check runs. -/
def _validate_page_size (page_size : Nat) : Except PyError Unit :=
  if page_size < 512 ∨ page_size > 32768 then Except.error PyError.valueError
  else validate_page_size_loop page_size

/-- Embeds the `SQLiteHeader.page_size` property (src/app/sqlite/database.py,
lines 54-67): reads the 2-byte big-endian field at offset 16, maps the
stored value 1 to 65536, runs `_validate_page_size`, and returns the
resolved size. -/
def page_size (header_bytes : List Nat) : Except PyError Nat :=
  let raw_value := int_from_bytes_be (subbytes header_bytes 16 2)
  let resolved := if raw_value = 1 then 65536 else raw_value
  match _validate_page_size resolved with
  | Except.error e => Except.error e
  | Except.ok _ => Except.ok resolved

/-- Condition operand inside `SQLiteDatabase.query`: either a column
`Identifier` (already resolved to its index in `schema_column_names`, as
done once by the `extract` closure) or a literal already converted to a
`Record` by `_record_extractor` (src/app/sqlite/database.py, lines
345-368). -/
inductive QTok where
  | ident (column_index : Nat)
  | lit (record : Record)
  deriving DecidableEq

/-- Embeds the `extract` closure of `SQLiteDatabase._record_extractor`:
an identifier fetches `row_record[column_index]` (an out-of-range index
raises), a literal token is returned as its prepared `Record`. -/
def record_from_token (row_record : List Record) : QTok → Except PyError Record
  | QTok.ident column_index =>
      match row_record.get? column_index with
      | some record => Except.ok record
      | none => Except.error PyError.indexError
  | QTok.lit record => Except.ok record

/-- Embeds the `matching_row` loop of `SQLiteDatabase.query`
(src/app/sqlite/database.py, lines 474-481): both sides of each condition
are evaluated and the row is rejected on the first mismatch. -/
def row_matches (row_records : List Record) :
    List (QTok × QTok) → Except PyError Bool
  | [] => Except.ok true
  | (left_arg, right_arg) :: rest =>
      match record_from_token row_records left_arg with
      | Except.error e => Except.error e
      | Except.ok left_value =>
        match record_from_token row_records right_arg with
        | Except.error e => Except.error e
        | Except.ok right_value =>
          if left_value ≠ right_value then Except.ok false
          else row_matches row_records rest

/-- Row-materialization loop of `SQLiteDatabase.query`
(src/app/sqlite/database.py, lines 470-493): every candidate leaf cell's
full payload is parsed with `parse_records` and rows failing a condition
are skipped. -/
def query_scan (conditions : List (QTok × QTok)) :
    List (List Nat) → Except PyError (List (List Record))
  | [] => Except.ok []
  | payload :: rest =>
      match parse_records payload with
      | Except.error e => Except.error e
      | Except.ok row_records =>
        match row_matches row_records conditions with
        | Except.error e => Except.error e
        | Except.ok matching =>
          match query_scan conditions rest with
          | Except.error e => Except.error e
          | Except.ok tail =>
            Except.ok (if matching then row_records :: tail else tail)

/-- Embeds the output behaviour of `SQLiteDatabase.query`
(src/app/sqlite/database.py, lines 390-493) over the linear leaf-cell
payload stream of the table.  When `count_rows` is set the source yields
`len(list(linear_row_leaf_cells))` and returns immediately, before the
conditions are ever consulted; otherwise it materializes the rows and
filters them with the `matching_row` loop.  Index selection and column
projection, which only apply on the non-count path, are not needed by the
properties below about the emitted count. -/
def SQLiteDatabase.query (row_payloads : List (List Nat))
    (conditions : List (QTok × QTok)) (count_rows : Bool) :
    Except PyError (List (Nat ⊕ List Record)) :=
  if count_rows then
    Except.ok [Sum.inl row_payloads.length]
  else
    match query_scan conditions row_payloads with
    | Except.error e => Except.error e
    | Except.ok rows => Except.ok (rows.map Sum.inr)

/-- Embeds one pass `for cell in filtering_result: if cell not in group:
filtering_result.remove(cell)` of `SQLiteDatabase.query`
(src/app/sqlite/database.py, lines 462-465), with CPython's list-iterator
semantics made explicit: the iterator keeps a position `i` into the list
being mutated, `remove` deletes the first occurrence equal to the current
element, and the position still advances afterwards. -/
def intersect_filter_pass [DecidableEq α] (group : List α) (i : Nat)
    (filtering_result : List α) : List α :=
  if h : i < filtering_result.length then
    if filtering_result.get ⟨i, h⟩ ∈ group then
      intersect_filter_pass group (i + 1) filtering_result
    else
      intersect_filter_pass group (i + 1)
        (filtering_result.erase (filtering_result.get ⟨i, h⟩))
  else filtering_result
termination_by filtering_result.length - i
decreasing_by
  · omega
  · have hmem := List.get_mem filtering_result i h
    have herase := List.length_erase_of_mem hmem
    omega

/-- Embeds the combination block of `SQLiteDatabase.query`
(src/app/sqlite/database.py, lines 460-467): the first index's result is
the driving list and every further group triggers one removal pass. -/
def combine_index_groups [DecidableEq α] (first_group : List α)
    (other_groups : List (List α)) : List α :=
  other_groups.foldl
    (fun filtering_result group => intersect_filter_pass group 0 filtering_result)
    first_group

/-- Schema-object kinds stored in the `type` column of `sqlite_schema`
(src/app/sqlite/schema.py). -/
inductive SchemaObjectType where
  | table | index | view | trigger
  deriving DecidableEq

/-- Schema row as used by `SQLiteDatabase.schema_objects`
(src/app/sqlite/database.py): one object per `sqlite_schema` leaf cell,
of any type. -/
structure SchemaObject where
  type : SchemaObjectType
  tbl_name : List Nat
  root_page : Nat
  deriving DecidableEq

/-- Embeds the `.dbinfo` branch of src/app/main.py (lines 12-17): the
printed `number of tables` is `len(list(database.schema_objects()))`,
the length of the full schema-object list, with no filter on the `type`
field. -/
def dbinfo_number_of_tables (schema_objects : List SchemaObject) : Nat :=
  schema_objects.length

/-- Helper evaluation: a 3-byte payload `[2, 15, c]` parses to a single
one-byte STRING record holding `c` (header size 2, serial type 15). -/
theorem parse_records_single_string_row (c : Nat) :
    parse_records [2, 15, c] = Except.ok [⟨SerialType.STRING, [c]⟩] := by
  simp [parse_records, parse_records_go, huffman_varint, subbytes, is_last,
    _parse_header]

/-- Helper evaluation: scanning the two single-column STRING rows 65 and
66 under the condition `column0 = ⟨STRING, [65]⟩` keeps only the first
row. -/
theorem query_scan_two_rows_eval :
    query_scan [(QTok.ident 0, QTok.lit ⟨SerialType.STRING, [65]⟩)]
      [[2, 15, 65], [2, 15, 66]] = Except.ok [[⟨SerialType.STRING, [65]⟩]] := by
  simp [query_scan, parse_records_single_string_row, row_matches,
    record_from_token, List.get?]

/-- C1: the claim states that `huffman_varint` decodes any conforming
big-endian varint encoding of `v` back to `v` (first byte most
significant).  Evaluating the code refutes this: `[0x81, 0x00]` is the
conforming 2-byte encoding of 128, yet the decoder returns 1, because the
fold over `reversed(bytes[:length])` gives the first byte the least
significance.  On `[0xD6, 0xC4, 0x24]`, the input of the repository's own
unit test `test_multi_byte_varint`, the decoder returns 598614 while the
test expects the big-endian value 1417764. -/
theorem huffman_varint_big_endian_eval :
    huffman_varint [129, 0] = Except.ok ⟨1, 2⟩ ∧
    huffman_varint [214, 196, 36] = Except.ok ⟨598614, 3⟩ ∧
    (598614 : Nat) ≠ 1417764 :=
  ⟨rfl, rfl, by decide⟩

/-- C2: the claim states that a table-leaf cell is fully local exactly
when the slot bytes remaining after the two varints are at least
`payload_size`, and that one byte less triggers the overflow path.
Evaluating the code refutes both directions: on `[2, 1, 170]` the
remaining slot (1 byte) is one less than the declared payload size (2),
yet `create` takes the local branch, storing a truncated 1-byte payload
and no overflow page; on `[1, 1, 170, 11, 22, 33, 44]` the remaining
slot (5 bytes) exceeds the payload size (1), yet `create` takes the
overflow branch, reading the trailing 4 bytes as an overflow page
number, because the source compares with `<=` instead of `>=`. -/
theorem tableLeafCell_create_local_overflow_eval :
    TableBTreeLeafCell.create [2, 1, 170] = Except.ok ⟨2, 1, [170], none⟩ ∧
    TableBTreeLeafCell.create [1, 1, 170, 11, 22, 33, 44] =
      Except.ok ⟨1, 1, [170], some 185999660⟩ :=
  ⟨rfl, rfl⟩

/-- Counterexample for C3: the payload `[3, 10, 1]` contains the reserved
serial type 10 in its record header, and its second field (INT8, size 1)
would extend past the empty payload body, yet `parse_records` returns a
record list instead of failing. -/
theorem parse_records_reserved_counterexample :
    parse_records [3, 10, 1] =
      Except.ok [⟨SerialType.RESERVED1, []⟩, ⟨SerialType.INT8, []⟩] := by
  simp [parse_records, parse_records_go, huffman_varint, subbytes, is_last,
    _parse_header]

/-- C3 (amended): `_parse_header` maps the reserved serial types 10 and
11 to size-0 records of the reserved type instead of raising, in fact it
succeeds on every non-negative serial-type value, and a field slice that
would extend past the payload body is silently clamped by `subbytes` to
the bytes that exist rather than raising. -/
theorem parse_records_reserved_and_truncation :
    _parse_header 10 = Except.ok (SerialType.RESERVED1, 0) ∧
    _parse_header 11 = Except.ok (SerialType.RESERVED2, 0) ∧
    (∀ value : Nat, ∃ result, _parse_header value = Except.ok result) ∧
    ∀ (body_bytes : List Nat) (body_offset size : Nat),
      (subbytes body_bytes body_offset size).length =
        min size (body_bytes.length - body_offset) := by
  refine ⟨rfl, rfl, ?_, ?_⟩
  · intro value
    by_cases hsmall : value < 12
    · interval_cases value <;> exact ⟨_, rfl⟩
    · unfold _parse_header
      repeat rw [if_neg (show ¬_ by omega)]
      by_cases hpar : value % 2 = 0
      · rw [if_pos ⟨by omega, hpar⟩]
        exact ⟨_, rfl⟩
      · rw [if_neg (show ¬_ by omega), if_pos ⟨by omega, by omega⟩]
        exact ⟨_, rfl⟩
  · intro body_bytes body_offset size
    simp [subbytes]

/-- C4: the claim states that a COUNT(*) query carrying an equality
predicate falls through to row materialization and emits the number of
matching rows.  Evaluating the code refutes this: on a two-row table
(single STRING column holding byte 65 resp. 66) with the condition
`column0 = 'A'`, the count path emits 2, the total number of rows, while
the row-materialization path of the very same query keeps exactly the one
matching row, because `query` yields `len(list(linear_row_leaf_cells))`
and returns before the conditions are consulted. -/
theorem query_count_rows_eval :
    SQLiteDatabase.query [[2, 15, 65], [2, 15, 66]]
        [(QTok.ident 0, QTok.lit ⟨SerialType.STRING, [65]⟩)] true =
      Except.ok [Sum.inl 2] ∧
    SQLiteDatabase.query [[2, 15, 65], [2, 15, 66]]
        [(QTok.ident 0, QTok.lit ⟨SerialType.STRING, [65]⟩)] false =
      Except.ok [Sum.inr [⟨SerialType.STRING, [65]⟩]] := by
  constructor
  · rfl
  · simp [SQLiteDatabase.query, query_scan_two_rows_eval]

/-- C5: the claim states that combining several index result groups keeps
exactly the driving group's cells that occur in every other group and
removes every cell missing from some other group.  Evaluating the code
refutes this: with driving group `[c1, c2]` and a second, empty group the
intersection is empty, yet the pass returns `[c2]`, because
`filtering_result.remove(cell)` inside `for cell in filtering_result`
shifts the list under the iterator and the element after each removed one
is skipped. -/
theorem combine_index_groups_eval :
    combine_index_groups
        [(⟨2, 1, [170], none⟩ : TableBTreeLeafCell), ⟨2, 2, [171], none⟩]
        [[]] =
      [⟨2, 2, [171], none⟩] := by
  show intersect_filter_pass ([] : List TableBTreeLeafCell) 0
      [⟨2, 1, [170], none⟩, ⟨2, 2, [171], none⟩] = [⟨2, 2, [171], none⟩]
  unfold intersect_filter_pass
  rw [dif_pos (by decide)]
  rw [if_neg (by simp)]
  show intersect_filter_pass ([] : List TableBTreeLeafCell) 1
      [⟨2, 2, [171], none⟩] = [⟨2, 2, [171], none⟩]
  unfold intersect_filter_pass
  rw [dif_neg (by decide)]

/-- C6: the claim states that on a 9-byte input whose first 8 bytes all
have the high bit set, `huffman_varint` terminates at the 9th byte
regardless of its high bit and takes all 8 bits of that byte.
Evaluating the code refutes both parts: with the 9th byte `0xFF` the
generator in `next(...)` finds no terminator and the call fails with
`StopIteration` instead of returning length 9, and with the 9th byte
`0x01` the decoder does return length 9 but masks the 9th byte to 7 bits
and gives it weight `128^8`, producing `2^56` where the format assigns
the value 1. -/
theorem huffman_varint_nine_byte_eval :
    huffman_varint (List.replicate 8 128 ++ [255]) =
      Except.error PyError.stopIteration ∧
    huffman_varint (List.replicate 8 128 ++ [1]) =
      Except.ok ⟨72057594037927936, 9⟩ :=
  ⟨rfl, rfl⟩

/-- C7: the claim states that a header whose 2-byte page-size field holds
1 resolves to 65536 and succeeds.  Evaluating the code refutes this: the
field value 1 is indeed mapped to 65536, but `_validate_page_size` then
rejects every size above 32768, so reading the page size raises
`ValueError` instead of returning 65536. -/
theorem page_size_rejects_65536_eval :
    page_size (List.replicate 16 0 ++ [0, 1]) =
      Except.error PyError.valueError :=
  rfl

/-- C8: the claim states that `.dbinfo` prints the number of user tables,
i.e. the count of schema rows whose type is `table`.  Evaluating the code
refutes this: on a schema holding one table row and one index row the
code prints 2, the length of the unfiltered schema-object list, while the
table-only count is 1. -/
theorem dbinfo_number_of_tables_eval :
    dbinfo_number_of_tables
        [⟨SchemaObjectType.table, [116], 2⟩, ⟨SchemaObjectType.index, [105], 3⟩] = 2 ∧
    (([⟨SchemaObjectType.table, [116], 2⟩,
        (⟨SchemaObjectType.index, [105], 3⟩ : SchemaObject)].filter
      (fun schema_object => schema_object.type == SchemaObjectType.table)).length) = 1 :=
  ⟨rfl, rfl⟩

/-- C9: `subbytes` is total for all non-negative offsets and lengths and
silently clamps: the result has length `min length (total - offset)` (so
it is the truncated slice when `offset + length` overruns, and empty when
`offset` is past the end), and it is a contiguous slice of the input,
the input being recovered by re-attaching the bytes before and after. -/
theorem subbytes_clamps (self : List Nat) (offset length : Nat) :
    (subbytes self offset length).length = min length (self.length - offset) ∧
    self.take offset ++ subbytes self offset length ++
      (self.drop offset).drop length = self := by
  constructor
  · simp [subbytes]
  · simp only [subbytes]
    rw [List.append_assoc, List.take_append_drop, List.take_append_drop]

/-- C10: `huffman_varint` rejects every empty input and every input
longer than 9 bytes with `ValueError`; the length check runs before the
terminator search, so a long input fails even when its first byte already
has the high bit clear. -/
theorem huffman_varint_length_guard (bytes : List Nat)
    (h : bytes.length = 0 ∨ 9 < bytes.length) :
    huffman_varint bytes = Except.error PyError.valueError := by
  have hc : bytes.length < 1 ∨ bytes.length > 9 := by omega
  unfold huffman_varint
  rw [if_pos hc]

/-- Witness for C10 at two concrete inputs: the empty byte string, and a
10-byte input whose first byte (0) already has its high bit clear and
would terminate a valid 1-byte varint. -/
theorem huffman_varint_length_guard_witness :
    huffman_varint ([] : List Nat) = Except.error PyError.valueError ∧
    huffman_varint (0 :: List.replicate 9 128) = Except.error PyError.valueError :=
  ⟨huffman_varint_length_guard [] (Or.inl rfl),
    huffman_varint_length_guard (0 :: List.replicate 9 128)
      (Or.inr (by decide))⟩
